import Mathlib

/-!
Verification of the node-lifecycle and graceful-shutdown orchestrator of the
`zero` sub-command (`dgraph/cmd/zero/run.go`).

The development shallowly embeds:
* the Closer synchronization primitive (modelled from the spec, since the
  `ristretto/z` implementation is an external dependency of the file);
* the signal-handling loop of `run` (lines 364-383);
* the two-phase gRPC stop protocol of `serveGRPC` (lines 184-204);
* the shutdown-sequencer goroutine of `run` (lines 387-406) as an executable
  interpreter producing an instrumented event trace;
* the startup validation sequence of `run` (lines 207-362) as an executable
  function returning the emitted startup events and an optional fatal error;
* a happens-before schedule model of a complete graceful-shutdown run tying
  the sequencer, the gRPC serve goroutine and the main thread together.
-/

namespace DgraphZero

/-! ## Closer

Modelled from the spec: the Closer implementation (`ristretto/z.Closer`) is not
part of the source file; spec section 4.1 gives its contract: a count of
running units, a one-shot stop signal; `AddRunning` increments the count,
`Done` decrements it, `Signal` idempotently requests stop, and `Wait` returns
only once stop was requested and the count reached zero. -/

structure Closer where
  running : Nat
  signaled : Bool
deriving DecidableEq, Repr

def newCloser (n : Nat) : Closer := ⟨n, false⟩

inductive CloserOp
  | addRunning (n : Nat)
  | doneUnit
  | signal
deriving DecidableEq, Repr

def applyOp (c : Closer) : CloserOp → Closer
  | .addRunning n => { c with running := c.running + n }
  | .doneUnit => { c with running := c.running - 1 }
  | .signal => { c with signaled := true }

def execOps (c : Closer) (ops : List CloserOp) : Closer :=
  ops.foldl applyOp c

/-- The states in which `Wait()` is unblocked: stop has been requested and the
running-unit count is zero. -/
def waitCanReturn (c : Closer) : Prop :=
  c.signaled = true ∧ c.running = 0

instance (c : Closer) : Decidable (waitCanReturn c) := by
  unfold waitCanReturn; infer_instance

/-- A single `Signal()` call. -/
def signalCloser (c : Closer) : Closer := applyOp c .signal

lemma execOps_signaled_of_mem (ops : List CloserOp) (c : Closer)
    (h : (execOps c ops).signaled = true) :
    c.signaled = true ∨ CloserOp.signal ∈ ops := by
  induction ops generalizing c with
  | nil => exact Or.inl h
  | cons op rest ih =>
    rcases ih (applyOp c op) h with h1 | h1
    · cases op with
      | addRunning n => exact Or.inl h1
      | doneUnit => exact Or.inl h1
      | signal => exact Or.inr (List.mem_cons_self _ _)
    · exact Or.inr (List.mem_cons_of_mem _ h1)

/-- C4: for every sequence of Closer operations starting from `NewCloser n`,
if `Wait()` can return then some `Signal()` occurred in the sequence and the
running-unit count is exactly zero; `Wait` never returns before a signal and
never while the count is positive. -/
theorem closer_wait_only_after_signal_and_zero_count
    (n : Nat) (ops : List CloserOp)
    (h : waitCanReturn (execOps (newCloser n) ops)) :
    CloserOp.signal ∈ ops ∧ (execOps (newCloser n) ops).running = 0 := by
  refine ⟨?_, h.2⟩
  rcases execOps_signaled_of_mem ops (newCloser n) h.1 with h1 | h1
  · simp [newCloser] at h1
  · exact h1

/-- Witness for C4: a concrete balanced trace on which `Wait` can return. -/
theorem closer_wait_witness :
    CloserOp.signal ∈
      [CloserOp.addRunning 1, CloserOp.doneUnit, CloserOp.doneUnit,
        CloserOp.signal] ∧
    (execOps (newCloser 1)
      [CloserOp.addRunning 1, CloserOp.doneUnit, CloserOp.doneUnit,
        CloserOp.signal]).running = 0 :=
  closer_wait_only_after_signal_and_zero_count 1 _ (by decide)

/-- C8: `Signal()` is idempotent: invoking it `k + 1` times produces the same
state as invoking it once, that state is signaled (exactly one shutdown
transition), and every invocation after the first is a no-op. -/
theorem closer_signal_idempotent (c : Closer) (k : Nat) :
    signalCloser^[k + 1] c = signalCloser c ∧
    (signalCloser c).signaled = true ∧
    signalCloser (signalCloser c) = signalCloser c := by
  refine ⟨?_, rfl, rfl⟩
  induction k with
  | zero => rfl
  | succ m ih =>
    rw [Function.iterate_succ_apply', ih]
    rfl

/-! ## Signal Coordinator

The signal-handling goroutine of `run` (run.go 364-383): a counter closure over
the signals received on the `sdCh` channel.  On the first received signal it
unregisters the subscription (`signal.Stop`) and calls `Closer.Signal()` on the
top-level closer; on the third it calls `os.Exit(1)`; otherwise it logs and
ignores.  `os.Exit` terminates the process, so the loop body never runs again
afterwards; the model makes the exited state absorbing. -/

structure SigState where
  sigCnt : Nat
  notifyStopped : Bool
  signalCalls : Nat
  ignoredLogged : Nat
  exited : Option Nat
deriving DecidableEq, Repr

def initSigState : SigState := ⟨0, false, 0, 0, none⟩

def handleSignal (s : SigState) : SigState :=
  if s.exited.isSome then s
  else
    let cnt := s.sigCnt + 1
    if cnt = 1 then
      { s with sigCnt := cnt, notifyStopped := true,
               signalCalls := s.signalCalls + 1 }
    else if cnt = 3 then
      { s with sigCnt := cnt, exited := some 1 }
    else
      { s with sigCnt := cnt, ignoredLogged := s.ignoredLogged + 1 }

/-- State of the signal loop after `n` termination signals have been received. -/
def deliverSignals : Nat → SigState
  | 0 => initSigState
  | n + 1 => handleSignal (deliverSignals n)

lemma handleSignal_of_exited (s : SigState) (h : s.exited.isSome) :
    handleSignal s = s := by
  unfold handleSignal
  simp [h]

lemma deliverSignals_of_ge_three (k : Nat) :
    deliverSignals (3 + k) = deliverSignals 3 := by
  induction k with
  | zero => rfl
  | succ m ih =>
    have : 3 + (m + 1) = (3 + m) + 1 := rfl
    rw [this, deliverSignals, ih]
    exact handleSignal_of_exited _ (by decide)

/-- C2: after the first received signal exactly one shutdown request
(`Closer.Signal`) has been issued; a second signal is logged and ignored with
no process exit; from the third signal on the loop has exited the process with
status 1, still having issued exactly one shutdown request. -/
theorem signal_escalation (n : Nat) :
    (1 ≤ n → (deliverSignals n).signalCalls = 1) ∧
    (n ≤ 2 → (deliverSignals n).exited = none) ∧
    ((deliverSignals 2).ignoredLogged = 1) ∧
    (3 ≤ n → (deliverSignals n).exited = some 1) := by
  refine ⟨?_, ?_, by decide, ?_⟩
  · intro h
    match n, h with
    | 1, _ => decide
    | 2, _ => decide
    | (m + 3), _ =>
      have := deliverSignals_of_ge_three m
      rw [Nat.add_comm 3 m] at this
      rw [this]; decide
  · intro h
    match n, h with
    | 0, _ => decide
    | 1, _ => decide
    | 2, _ => decide
  · intro h
    obtain ⟨k, hk⟩ := Nat.exists_eq_add_of_le h
    rw [hk, deliverSignals_of_ge_three]
    decide

/-- Witness for C2 at one, two and three received signals. -/
theorem signal_escalation_witness :
    (deliverSignals 1).signalCalls = 1 ∧
    (deliverSignals 2).exited = none ∧
    (deliverSignals 3).exited = some 1 :=
  ⟨(signal_escalation 1).1 (by decide),
   (signal_escalation 2).2.1 (by decide),
   (signal_escalation 3).2.2.2 (by decide)⟩

/-! ## RPC Server Wrapper: two-phase stop

`serveGRPC` (run.go 184-204): after `s.Serve` returns, a helper goroutine runs
`s.GracefulStop()` and closes `done`; the wrapper selects between `done` and
`time.After(5 * time.Second)`.  `d` is the time (in nanoseconds) the graceful
drain takes.  The protocol returns no error to its caller in either case; the
outcome is only logged. -/

def grpcGracefulTimeout : Nat := 5 * 1000000000

structure GrpcStopOutcome where
  forcedStops : Nat
  forcedAt : Option Nat
  stoppedAt : Nat
deriving DecidableEq, Repr

def grpcStopProtocol (d : Nat) : GrpcStopOutcome :=
  if d ≤ grpcGracefulTimeout then
    { forcedStops := 0, forcedAt := none, stoppedAt := d }
  else
    { forcedStops := 1, forcedAt := some grpcGracefulTimeout,
      stoppedAt := grpcGracefulTimeout }

/-- C3: if the graceful drain completes within the 5-second timeout the server
is never force-terminated; otherwise `s.Stop()` runs exactly once, at the
moment the timeout elapses and not earlier. -/
theorem grpc_two_phase_stop (d : Nat) :
    (d ≤ grpcGracefulTimeout →
      (grpcStopProtocol d).forcedStops = 0 ∧
      (grpcStopProtocol d).forcedAt = none) ∧
    (grpcGracefulTimeout < d →
      (grpcStopProtocol d).forcedStops = 1 ∧
      (grpcStopProtocol d).forcedAt = some grpcGracefulTimeout ∧
      (grpcStopProtocol d).stoppedAt = grpcGracefulTimeout) := by
  constructor
  · intro h
    simp [grpcStopProtocol, h]
  · intro h
    simp [grpcStopProtocol, Nat.not_le_of_lt h]

/-- Witness for C3: a fast drain is graceful, a slow drain is forced exactly
at the timeout. -/
theorem grpc_two_phase_stop_witness :
    (grpcStopProtocol 1000).forcedStops = 0 ∧
    (grpcStopProtocol 7000000000).forcedAt = some grpcGracefulTimeout :=
  ⟨((grpc_two_phase_stop 1000).1 (by decide)).1,
   ((grpc_two_phase_stop 7000000000).2 (by decide)).2.1⟩

/-! ## Shutdown Sequencer

The shutdown goroutine of `run` (run.go 387-406) executes, after
`HasBeenClosed` fires, the straight-line statement list: `close(sdCh)`,
`httpListener.Close()`, `st.node.closer.SignalAndWait()`,
`st.node.trySnapshot(0)`, `store.Closer.SignalAndWait()`,
`grpcListener.Close()`, `x.RemoveCidFile()`.  The interpreter below executes
that statement list over a world state and instruments every executed step
with a monotonically increasing counter.  `trySnapshot` is modelled from the
spec where its body (`raft.go`, not in the source file) matters: it is a
best-effort attempt whose failure is logged and never aborts the caller. -/

inductive SeqStep
  | closeSignalChan
  | closeHttpListener
  | raftCloserSignalAndWait
  | snapshotAttempt
  | storeCloserSignalAndWait
  | closeGrpcListener
  | removeCidFile
deriving DecidableEq, Repr

/-- The statement list of the shutdown goroutine, in source order. -/
def sequencerProgram : List SeqStep :=
  [.closeSignalChan, .closeHttpListener, .raftCloserSignalAndWait,
   .snapshotAttempt, .storeCloserSignalAndWait, .closeGrpcListener,
   .removeCidFile]

/-- The six teardown steps named by the design, in the order of run.go. -/
def teardownSteps : List SeqStep :=
  [.closeHttpListener, .raftCloserSignalAndWait, .snapshotAttempt,
   .storeCloserSignalAndWait, .closeGrpcListener, .removeCidFile]

structure SeqWorld where
  sigChanOpen : Bool
  httpOpen : Bool
  grpcOpen : Bool
  raftCloser : Closer
  storeCloser : Closer
  snapshotAttempts : Nat
  snapshotFailuresLogged : Nat
  cidFilePresent : Bool
deriving DecidableEq, Repr

def initSeqWorld : SeqWorld :=
  ⟨true, true, true, newCloser 1, newCloser 1, 0, 0, true⟩

/-- Modelled from the spec: `SignalAndWait` on a sub-closer signals stop and
blocks until every running unit has called `Done`; its post-state is signaled
with a zero running count. -/
def signalAndWait (c : Closer) : Closer :=
  { signalCloser c with running := 0 }

def execStep (snapOk : Bool) (w : SeqWorld) : SeqStep → SeqWorld
  | .closeSignalChan => { w with sigChanOpen := false }
  | .closeHttpListener => { w with httpOpen := false }
  | .raftCloserSignalAndWait => { w with raftCloser := signalAndWait w.raftCloser }
  | .snapshotAttempt =>
      { w with snapshotAttempts := w.snapshotAttempts + 1,
               snapshotFailuresLogged :=
                 w.snapshotFailuresLogged + (if snapOk then 0 else 1) }
  | .storeCloserSignalAndWait =>
      { w with storeCloser := signalAndWait w.storeCloser }
  | .closeGrpcListener => { w with grpcOpen := false }
  | .removeCidFile => { w with cidFilePresent := false }

/-- Run a statement list sequentially, emitting each executed step tagged with
an increasing counter value. -/
def runSteps (snapOk : Bool) :
    SeqWorld × Nat × List (Nat × SeqStep) → List SeqStep →
    SeqWorld × Nat × List (Nat × SeqStep)
  | acc, [] => acc
  | (w, ctr, tr), s :: rest =>
      runSteps snapOk (execStep snapOk w s, ctr + 1, tr ++ [(ctr, s)]) rest

/-- One triggered run of the shutdown sequencer. -/
def runSequencer (snapOk : Bool) : SeqWorld × Nat × List (Nat × SeqStep) :=
  runSteps snapOk (initSeqWorld, 0, []) sequencerProgram

def sequencerTrace (snapOk : Bool) : List (Nat × SeqStep) :=
  (runSequencer snapOk).2.2

/-- C1: in every triggered run (snapshot succeeding or not), the six teardown
steps execute exactly in the fixed order — the emitted step sequence restricted
to them is `teardownSteps`, their instrumentation counters are strictly
increasing, and each step runs exactly once. -/
theorem sequencer_fixed_order (snapOk : Bool) :
    ((sequencerTrace snapOk).map Prod.snd).filter (· ∈ teardownSteps) =
      teardownSteps ∧
    List.Pairwise (· < ·) ((sequencerTrace snapOk).map Prod.fst) ∧
    (∀ s ∈ teardownSteps,
      ((sequencerTrace snapOk).map Prod.snd).count s = 1) := by
  cases snapOk <;> decide

/-- Witness for C1: the snapshot step runs exactly once in a concrete run. -/
theorem sequencer_fixed_order_witness :
    ((sequencerTrace true).map Prod.snd).count SeqStep.snapshotAttempt = 1 :=
  (sequencer_fixed_order true).2.2 SeqStep.snapshotAttempt (by decide)

/-- C6: in every triggered run exactly one snapshot is attempted, strictly
after the consensus node closer was signaled-and-waited and strictly before
the storage closer is stopped; on failure the attempt is logged and the
remaining steps (storage stop, gRPC listener close, identity-file removal)
still execute. -/
theorem snapshot_once_between_raft_and_store (snapOk : Bool) :
    (runSequencer snapOk).1.snapshotAttempts = 1 ∧
    ((sequencerTrace snapOk).map Prod.snd).indexOf .raftCloserSignalAndWait <
      ((sequencerTrace snapOk).map Prod.snd).indexOf .snapshotAttempt ∧
    ((sequencerTrace snapOk).map Prod.snd).indexOf .snapshotAttempt <
      ((sequencerTrace snapOk).map Prod.snd).indexOf .storeCloserSignalAndWait ∧
    (runSequencer snapOk).1.snapshotFailuresLogged =
      (if snapOk then 0 else 1) ∧
    ((sequencerTrace snapOk).map Prod.snd).count .storeCloserSignalAndWait = 1 ∧
    ((sequencerTrace snapOk).map Prod.snd).count .closeGrpcListener = 1 ∧
    ((sequencerTrace snapOk).map Prod.snd).count .removeCidFile = 1 := by
  cases snapOk <;> decide

/-! ## Startup validation

The startup phase of `run` (run.go 207-406) in source order: the fatal
configuration checks, then the listener binds, the cache assertion, the
write-ahead-log directory creation, the badger loading-mode switches, the
store open, and the background goroutines.  Environment operations (socket
bind, directory creation, store open, cache-percentage parsing) are modelled
as succeeding: the claims settled here concern configuration-driven fatal
aborts.  `log.Fatalf` / `x.Fatalf` / failed `x.AssertTruef` terminate the
process, modelled by returning the events emitted so far plus a fatal
message. -/

inductive LoadingMode
  | memoryMap
  | loadToRam
  | fileIo
deriving DecidableEq, Repr

/-- The `badger.tables` switch (run.go 312-321). -/
def tableLoadingMode : String → Option LoadingMode
  | "mmap" => some .memoryMap
  | "ram" => some .loadToRam
  | "disk" => some .fileIo
  | _ => none

/-- The `badger.vlog` switch (run.go 322-329). -/
def vlogLoadingMode : String → Option LoadingMode
  | "mmap" => some .memoryMap
  | "disk" => some .fileIo
  | _ => none

structure ZeroOptions where
  idx : Nat
  replicas : Int
  eeBuild : Bool
  enterpriseLicense : String
  rebalanceIntervalNs : Int
  totalCacheMb : Int
  badgerTables : String
  badgerVlog : String
deriving DecidableEq, Repr

inductive StartEv
  | listenerOpened (kind : String)
  | walDirCreated
  | walStoreOpened (tables vlog : LoadingMode)
  | backgroundTaskStarted (name : String)
deriving DecidableEq, Repr

structure StartOutcome where
  events : List StartEv
  fatal : Option String
deriving DecidableEq, Repr

def startup (c : ZeroOptions) : StartOutcome :=
  if c.idx = 0 then
    ⟨[], some "idx flag cannot be 0"⟩
  else if c.eeBuild = false ∧ c.enterpriseLicense ≠ "" then
    ⟨[], some "enterprise_license option cannot be applied to OSS builds"⟩
  else if c.replicas < 0 ∨ Int.tmod c.replicas 2 = 0 then
    ⟨[], some "Number of replicas must be odd for consensus"⟩
  else if c.rebalanceIntervalNs ≤ 0 then
    ⟨[], some "Rebalance interval must be greater than zero"⟩
  else
    let evs := [StartEv.listenerOpened "grpc", StartEv.listenerOpened "http"]
    if c.totalCacheMb < 0 then
      ⟨evs, some "Cache size must be non-negative"⟩
    else
      let evs := evs ++ [StartEv.walDirCreated]
      match tableLoadingMode c.badgerTables with
      | none => ⟨evs, some "Invalid Badger Tables options"⟩
      | some tm =>
        match vlogLoadingMode c.badgerVlog with
        | none => ⟨evs, some "Invalid Badger Value log options"⟩
        | some vm =>
          ⟨evs ++
            [StartEv.walStoreOpened tm vm,
             StartEv.backgroundTaskStarted "vlogGc",
             StartEv.backgroundTaskStarted "grpcServe",
             StartEv.backgroundTaskStarted "httpServe",
             StartEv.backgroundTaskStarted "signalHandler",
             StartEv.backgroundTaskStarted "shutdownSequencer"], none⟩

/-- C7: a negative or even replica count aborts the process fatally before any
listener is opened and before any background task starts: no startup event at
all has been emitted. -/
theorem replicas_invalid_aborts (c : ZeroOptions)
    (h : c.replicas < 0 ∨ Int.tmod c.replicas 2 = 0) :
    (startup c).fatal.isSome = true ∧ (startup c).events = [] := by
  unfold startup
  split
  · exact ⟨rfl, rfl⟩
  · split
    · exact ⟨rfl, rfl⟩
    · exact ⟨rfl, rfl⟩


/-- Witness for C7 at an even replica count. -/
theorem replicas_invalid_aborts_witness :
    (startup ⟨1, 4, false, "", 1, 0, "mmap", "mmap"⟩).fatal.isSome = true ∧
    (startup ⟨1, 4, false, "", 1, 0, "mmap", "mmap"⟩).events = [] :=
  replicas_invalid_aborts ⟨1, 4, false, "", 1, 0, "mmap", "mmap"⟩
    (Or.inr (by decide))

/-- C9: node index zero aborts the process fatally before any listener or
background task; conversely every non-fatal startup has a positive index. -/
theorem idx_zero_aborts (c : ZeroOptions) :
    (c.idx = 0 →
      (startup c).fatal.isSome = true ∧ (startup c).events = []) ∧
    ((startup c).fatal = none → 0 < c.idx) := by
  constructor
  · intro h
    unfold startup
    rw [if_pos h]
    exact ⟨rfl, rfl⟩
  · intro h
    by_contra hpos
    have hz : c.idx = 0 := by omega
    unfold startup at h
    rw [if_pos hz] at h
    simp at h

/-- Witness for C9 at index zero. -/
theorem idx_zero_aborts_witness :
    (startup ⟨0, 1, false, "", 1, 0, "mmap", "mmap"⟩).fatal.isSome = true ∧
    (startup ⟨0, 1, false, "", 1, 0, "mmap", "mmap"⟩).events = [] :=
  (idx_zero_aborts ⟨0, 1, false, "", 1, 0, "mmap", "mmap"⟩).1 rfl

/-- The configuration checks preceding the badger loading-mode switches. -/
def validBaseOptions (c : ZeroOptions) : Prop :=
  c.idx ≠ 0 ∧ (c.eeBuild = true ∨ c.enterpriseLicense = "") ∧
  0 ≤ c.replicas ∧ Int.tmod c.replicas 2 ≠ 0 ∧
  0 < c.rebalanceIntervalNs ∧ 0 ≤ c.totalCacheMb

instance (c : ZeroOptions) : Decidable (validBaseOptions c) := by
  unfold validBaseOptions; infer_instance

/-- C10: an unrecognized `badger.tables` or `badger.vlog` value makes startup
abort fatally with the write-ahead-log store never opened; recognized values
select the corresponding loading mode and (when the earlier configuration
checks pass) startup proceeds to open the store with those modes and no fatal
error. -/
theorem badger_mode_validation (c : ZeroOptions) :
    ((tableLoadingMode c.badgerTables = none ∨
        vlogLoadingMode c.badgerVlog = none) →
      (startup c).fatal.isSome = true ∧
      ∀ tm vm, StartEv.walStoreOpened tm vm ∉ (startup c).events) ∧
    (∀ tm vm, tableLoadingMode c.badgerTables = some tm →
      vlogLoadingMode c.badgerVlog = some vm →
      validBaseOptions c →
      (startup c).fatal = none ∧
      StartEv.walStoreOpened tm vm ∈ (startup c).events) := by
  constructor
  · intro h
    unfold startup
    split
    · exact ⟨rfl, by simp⟩
    · split
      · exact ⟨rfl, by simp⟩
      · split
        · exact ⟨rfl, by simp⟩
        · split
          · exact ⟨rfl, by simp⟩
          · split
            · exact ⟨rfl, by simp⟩
            · cases htm : tableLoadingMode c.badgerTables with
              | none => exact ⟨rfl, by simp⟩
              | some tm =>
                  cases hvm : vlogLoadingMode c.badgerVlog with
                  | none => exact ⟨rfl, by simp⟩
                  | some vm =>
                      rw [htm, hvm] at h
                      simp at h
  · intro tm vm htm hvm hv
    obtain ⟨h1, h2, h3, h4, h5, h6⟩ := hv
    have c2 : ¬ (c.eeBuild = false ∧ c.enterpriseLicense ≠ "") := by
      rintro ⟨hf, hl⟩
      rcases h2 with h | h
      · rw [h] at hf
        exact Bool.noConfusion hf
      · exact hl h
    have c3 : ¬ (c.replicas < 0 ∨ Int.tmod c.replicas 2 = 0) := by
      rintro (h | h)
      · omega
      · exact h4 h
    unfold startup
    rw [if_neg h1, if_neg c2, if_neg c3, if_neg (by omega : ¬ c.rebalanceIntervalNs ≤ 0),
      if_neg (by omega : ¬ c.totalCacheMb < 0), htm, hvm]
    exact ⟨rfl, by simp⟩

/-- Witness for C10: an unrecognized tables value is fatal, and recognized
values open the store with the selected modes. -/
theorem badger_mode_validation_witness :
    (startup ⟨1, 1, false, "", 1, 0, "bogus", "mmap"⟩).fatal.isSome = true ∧
    StartEv.walStoreOpened LoadingMode.memoryMap LoadingMode.fileIo ∈
      (startup ⟨1, 1, false, "", 1, 0, "mmap", "disk"⟩).events :=
  ⟨((badger_mode_validation ⟨1, 1, false, "", 1, 0, "bogus", "mmap"⟩).1
      (Or.inl (by decide))).1,
   ((badger_mode_validation ⟨1, 1, false, "", 1, 0, "mmap", "disk"⟩).2
      LoadingMode.memoryMap LoadingMode.fileIo (by decide) (by decide)
      (by decide)).2⟩

/-! ## Full graceful-shutdown run: storage closed last

A complete graceful shutdown involves three tasks: the shutdown-sequencer
goroutine (run.go 387-406), the gRPC serve goroutine of `serveGRPC`
(run.go 184-204), and the main thread (run.go 409-412).  A run is modelled as
an assignment of occurrence times to the observable events; `validShutdownRun`
collects the happens-before edges of such a run: the program order of each
task, the fact that `s.Serve` returns only once the sequencer closed the gRPC
listener, and the Closer contract (modelled from the spec, section 4.1) that
`st.zero.closer.Wait()` returns only after both registered units — the serve
goroutine (deferred `Done`, line 185) and the shutdown goroutine
(`AddRunning(1)` line 385, deferred `Done` line 388) — have called `Done`. -/

structure ShutdownSchedule where
  closeHttpAt : Nat
  raftStopAt : Nat
  snapshotAt : Nat
  storeStopAt : Nat
  closeGrpcAt : Nat
  removeCidAt : Nat
  seqDoneAt : Nat
  grpcServeReturnAt : Nat
  grpcStopEndAt : Nat
  grpcDoneAt : Nat
  waitReturnAt : Nat
  kvCloseAt : Nat
deriving DecidableEq, Repr

def validShutdownRun (s : ShutdownSchedule) : Prop :=
  s.closeHttpAt < s.raftStopAt ∧ s.raftStopAt < s.snapshotAt ∧
  s.snapshotAt < s.storeStopAt ∧ s.storeStopAt < s.closeGrpcAt ∧
  s.closeGrpcAt < s.removeCidAt ∧ s.removeCidAt < s.seqDoneAt ∧
  s.closeGrpcAt < s.grpcServeReturnAt ∧
  s.grpcServeReturnAt < s.grpcStopEndAt ∧
  s.grpcStopEndAt < s.grpcDoneAt ∧
  s.seqDoneAt < s.waitReturnAt ∧ s.grpcDoneAt < s.waitReturnAt ∧
  s.waitReturnAt < s.kvCloseAt

instance (s : ShutdownSchedule) : Decidable (validShutdownRun s) := by
  unfold validShutdownRun; infer_instance

/-- C5: in every valid graceful-shutdown run, the write-ahead-log store is
closed by the main thread strictly after all six sequencer teardown steps and
strictly after the gRPC server's own stop protocol has finished, so no
teardown step references the already-closed storage handle. -/
theorem storage_closed_after_teardown (s : ShutdownSchedule)
    (h : validShutdownRun s) :
    s.closeHttpAt < s.kvCloseAt ∧ s.raftStopAt < s.kvCloseAt ∧
    s.snapshotAt < s.kvCloseAt ∧ s.storeStopAt < s.kvCloseAt ∧
    s.closeGrpcAt < s.kvCloseAt ∧ s.removeCidAt < s.kvCloseAt ∧
    s.grpcStopEndAt < s.kvCloseAt := by
  obtain ⟨h1, h2, h3, h4, h5, h6, h7, h8, h9, h10, h11, h12⟩ := h
  omega

/-- Witness for C5: a concrete valid shutdown schedule. -/
theorem storage_closed_after_teardown_witness :
    (⟨0, 1, 2, 3, 4, 5, 6, 7, 8, 9, 10, 11⟩ : ShutdownSchedule).closeHttpAt <
      (⟨0, 1, 2, 3, 4, 5, 6, 7, 8, 9, 10, 11⟩ : ShutdownSchedule).kvCloseAt ∧
    (⟨0, 1, 2, 3, 4, 5, 6, 7, 8, 9, 10, 11⟩ : ShutdownSchedule).grpcStopEndAt <
      (⟨0, 1, 2, 3, 4, 5, 6, 7, 8, 9, 10, 11⟩ : ShutdownSchedule).kvCloseAt :=
  ⟨(storage_closed_after_teardown _ (by decide)).1,
   (storage_closed_after_teardown _ (by decide)).2.2.2.2.2.2⟩

end DgraphZero
